import Mathlib

/-!
Shallow embedding of `src/packages/fluxible-router/src/handleHistory.js`
(the `HistoryHandler` component produced by `handleHistory`).

The handler methods are modelled as pure functions from the component's
inputs (options, instance flags, props, the host window, the native
history handle, the incoming event) to a trace of observable effects
(history mutations, action dispatches, viewport scrolls, prompts, logs).
JavaScript truthiness on the values the code actually tests (`||` on
numbers and strings, `=== null`, object truthiness) is made explicit via
small helper functions.
-/

namespace HandleHistory

/-- JS `a || b` on a possibly-absent number (`window.scrollX || window.pageXOffset`):
`undefined` and `0` are falsy. -/
def jsOrI (a : Option Int) (b : Int) : Int :=
  match a with
  | none => b
  | some v => if v = 0 then b else v

/-- JS `a || b` on a possibly-absent string (`nav.type || TYPE_DEFAULT`):
`undefined` and `''` are falsy. -/
def jsOrS (a : Option String) (b : String) : String :=
  match a with
  | none => b
  | some s => if s = "" then b else s

/-- JS `a || null` on a possibly-absent string (`navParams.pageTitle || null`). -/
def jsOrNull (a : Option String) : Option String :=
  match a with
  | none => none
  | some s => if s = "" then none else some s

/-- Mappings of string keys to string values (`params` / `query` objects). -/
def StrMap := List (String × String)
deriving DecidableEq, Inhabited

/-- Property lookup on a JS object modelled as an association list. -/
def StrMap.get (m : StrMap) (k : String) : Option String :=
  (List.lookup k (m : List (String × String)))

/-- A `scroll` sub-object stored in history entry state; either coordinate
may be absent on states not produced by this code. -/
structure ScrollPos where
  x : Option Int
  y : Option Int
deriving DecidableEq, Repr

def ScrollPos.empty : ScrollPos := { x := none, y := none }

/-- The opaque per-entry state object (`HistoryEntryState`). Fields may be
absent on foreign states, hence `Option`. -/
structure HistoryEntryState where
  query : Option StrMap := none
  params : Option StrMap := none
  scroll : Option ScrollPos := none
deriving DecidableEq

/-- The empty object `{}` used as default for an absent state. -/
def HistoryEntryState.empty : HistoryEntryState := {}

/-- The current route object from props (`props.currentRoute`). -/
structure Route where
  url : String
deriving DecidableEq

/-- The navigation descriptor from props (`props.currentNavigate`). -/
structure Nav where
  type : Option String := none
  url : Option String := none
  params : Option StrMap := none
  query : Option StrMap := none
  preserveScrollPosition : Bool := false
deriving DecidableEq

/-- Resolved options (after `Object.assign({}, defaultOptions, opts)`). -/
structure Options where
  checkRouteOnPageLoad : Bool := false
  enableScroll : Bool := true
  saveScrollInState : Bool := true
deriving DecidableEq

/-- Per-instance flags and props visible to the handlers. -/
structure Inst where
  /-- `this._ignorePageLoadPopstate`, cached at mount. -/
  ignorePageLoadPopstate : Bool
  currentRoute : Option Route := none
  currentNavigate : Option Nav := none
deriving DecidableEq

/-- Behaviour of a registered `window.onbeforeunload` function: it either
returns confirmation text or throws. -/
inductive UnloadHook where
  | returns (text : String)
  | throws
deriving DecidableEq

/-- The host window as read by the handlers. `onbeforeunload` is absent,
or a function that returns text or throws. `confirmAnswer` is the user's
response should `window.confirm` be consulted. -/
structure Window where
  scrollX : Option Int := none
  pageXOffset : Int := 0
  scrollY : Option Int := none
  pageYOffset : Int := 0
  onbeforeunload : Option UnloadHook := none
  confirmAnswer : Bool := true
deriving DecidableEq

/-- The native history handle's readable surface: `getUrl()` / `getState()`. -/
structure Hist where
  url : String
  state : Option HistoryEntryState := none
deriving DecidableEq

/-- Payload of a dispatched navigation action. -/
structure NavPayload where
  type : String
  url : String
  params : Option StrMap
  query : Option StrMap
deriving DecidableEq

/-- A popstate event as delivered to `_onHistoryChange`; `state` is the
event's state payload (`e.state`, possibly null). -/
structure Event where
  state : Option HistoryEntryState := none
deriving DecidableEq

/-- Observable effects of the handlers, in program order. -/
inductive Effect where
  | pushState (state : Option HistoryEntryState) (title : Option String) (url : Option String)
  | replaceState (state : Option HistoryEntryState) (title : Option String) (url : Option String)
  | executeAction (payload : NavPayload)
  | scrollTo (x y : Int)
  | clearOnBeforeUnload
  | confirmPrompt (text : String)
  | warn
  | offHistoryListener
  | removeScrollListener
deriving DecidableEq

/-- The viewport x-offset the code reads: `window.scrollX || window.pageXOffset`. -/
def windowScrollX (w : Window) : Int := jsOrI w.scrollX w.pageXOffset

/-- The viewport y-offset the code reads: `window.scrollY || window.pageYOffset`. -/
def windowScrollY (w : Window) : Int := jsOrI w.scrollY w.pageYOffset

/-- Lines 174-184: guarded call of `window.onbeforeunload`. Result is the
confirmation text together with the logging effects. -/
def runOnBeforeUnload (w : Window) : String × List Effect :=
  match w.onbeforeunload with
  | none => ("", [])
  | some (UnloadHook.returns s) => (s, [])
  | some UnloadHook.throws => ("", [Effect.warn])

/-- `_onHistoryChange` (lines 149-221), as a function from inputs to its
effect trace. -/
def onHistoryChange (opts : Options) (inst : Inst) (win : Window) (hist : Hist)
    (e : Event) : List Effect :=
  if inst.ignorePageLoadPopstate ∧ e.state = none ∧ hist.state ≠ none then
    []
  else
    let url := hist.url
    let currentUrl : Option String := inst.currentRoute.map Route.url
    let beforeUnload := runOnBeforeUnload win
    let onBeforeUnloadText := beforeUnload.1
    let confirmStep : Bool × List Effect :=
      if onBeforeUnloadText = "" then (true, [])
      else (win.confirmAnswer, [Effect.confirmPrompt onBeforeUnloadText])
    let confirmResult := confirmStep.1
    let navParams : StrMap := (inst.currentNavigate.bind Nav.params).getD []
    let navQuery : StrMap := (inst.currentNavigate.bind Nav.query).getD []
    let historyState : HistoryEntryState :=
      { query := some navQuery
        params := some navParams
        scroll :=
          if opts.saveScrollInState then
            some { x := some (windowScrollX win), y := some (windowScrollY win) }
          else none }
    let pageTitle := jsOrNull (navParams.get "pageTitle")
    beforeUnload.2 ++ confirmStep.2 ++
      (if confirmResult = false then
        [Effect.pushState (some historyState) pageTitle currentUrl]
      else if some url ≠ currentUrl then
        [Effect.clearOnBeforeUnload,
         Effect.executeAction
           { type := "popstate", url := url,
             params := e.state.bind HistoryEntryState.params,
             query := e.state.bind HistoryEntryState.query }]
      else [])

/-- `componentDidUpdate` (lines 252-309), as a function from inputs to its
effect trace. -/
def componentDidUpdate (opts : Options) (inst : Inst) (win : Window)
    (hist : Hist) : List Effect :=
  let nav := inst.currentNavigate
  let navType := jsOrS (nav.bind Nav.type) "default"
  let navParams : StrMap := (nav.bind Nav.params).getD []
  let navQuery : StrMap := (nav.bind Nav.query).getD []
  if navType = "click" ∨ navType = "default" ∨ navType = "replacestate" then
    if nav.bind Nav.url = some hist.url then
      []
    else
      let scrollPart : List Effect × Option ScrollPos :=
        if (nav.map Nav.preserveScrollPosition).getD false then
          ([],
           if opts.saveScrollInState then
             some { x := some (windowScrollX win), y := some (windowScrollY win) }
           else none)
        else
          ((if opts.enableScroll then [Effect.scrollTo 0 0] else []),
           if opts.saveScrollInState then some { x := some 0, y := some 0 }
           else none)
      let historyState : HistoryEntryState :=
        { params := some navParams, query := some navQuery, scroll := scrollPart.2 }
      let pageTitle := jsOrNull (navParams.get "pageTitle")
      scrollPart.1 ++
        [if navType = "replacestate" then
           Effect.replaceState (some historyState) pageTitle (nav.bind Nav.url)
         else
           Effect.pushState (some historyState) pageTitle (nav.bind Nav.url)]
  else if navType = "popstate" then
    if opts.enableScroll then
      let historyState := hist.state.getD HistoryEntryState.empty
      let scroll := historyState.scroll.getD ScrollPos.empty
      [Effect.scrollTo (jsOrI scroll.x 0) (jsOrI scroll.y 0)]
    else []
  else []

/-- `_saveScrollPosition` (lines 223-242), as a function from inputs to its
effect trace. -/
def saveScrollPosition (win : Window) (hist : Hist) : List Effect :=
  let historyState := hist.state.getD HistoryEntryState.empty
  let scrollX := windowScrollX win
  let scrollY := windowScrollY win
  if (match historyState.scroll with
      | some s => s.x == some scrollX && s.y == some scrollY
      | none => false) then
    []
  else
    [Effect.replaceState
      (some { historyState with scroll := some { x := some scrollX, y := some scrollY } })
      none none]

/-- `componentWillUnmount` (lines 244-250): effects only; it never touches
`this._scrollTimer`. -/
def componentWillUnmount (opts : Options) : List Effect :=
  [Effect.offHistoryListener] ++
    (if opts.saveScrollInState then [Effect.removeScrollListener] else [])

/-- Replay of a history mutation onto the readable history handle
(`replaceState`/`pushState` make the written state the current one). -/
def Hist.applyEffect (h : Hist) : Effect → Hist
  | Effect.replaceState s _ u => { h with state := s, url := u.getD h.url }
  | Effect.pushState s _ u => { h with state := s, url := u.getD h.url }
  | _ => h

def Hist.applyEffects (h : Hist) (tr : List Effect) : Hist :=
  tr.foldl Hist.applyEffect h

/-- Dispatched navigation-action payloads in a trace. -/
def dispatches (tr : List Effect) : List NavPayload :=
  tr.filterMap fun e =>
    match e with
    | Effect.executeAction p => some p
    | _ => none

/-- `pushState` calls in a trace: (state, title, url) triples. -/
def pushCalls (tr : List Effect) :
    List (Option HistoryEntryState × Option String × Option String) :=
  tr.filterMap fun e =>
    match e with
    | Effect.pushState s t u => some (s, t, u)
    | _ => none

/-- `replaceState` calls in a trace. -/
def replaceCalls (tr : List Effect) :
    List (Option HistoryEntryState × Option String × Option String) :=
  tr.filterMap fun e =>
    match e with
    | Effect.replaceState s t u => some (s, t, u)
    | _ => none

/-- `window.scrollTo` calls in a trace. -/
def scrollToCalls (tr : List Effect) : List (Int × Int) :=
  tr.filterMap fun e =>
    match e with
    | Effect.scrollTo x y => some (x, y)
    | _ => none

/-- `window.confirm` consultations in a trace. -/
def confirmCalls (tr : List Effect) : List String :=
  tr.filterMap fun e =>
    match e with
    | Effect.confirmPrompt t => some t
    | _ => none

/-!
Timer model for `_onScroll` (lines 139-147). `window.setTimeout` /
`window.clearTimeout` are modelled by a pool of pending timers, each a
pair of a fresh identifier and a due time; `this._scrollTimer` stores the
identifier of the timer the instance last armed.
-/

/-- The instance's timer-related state: `this._scrollTimer` plus the host
timer pool. -/
structure TimerState where
  scrollTimer : Option Nat
  pending : List (Nat × Nat)
  nextId : Nat
deriving DecidableEq

/-- `this._scrollTimer = null` with an empty host pool (state after mount,
line 101). Host timer handles are positive integers, so the `null` check
`if (this._scrollTimer)` coincides with the `Option` match; identifiers
start at 1 accordingly. -/
def TimerState.initial : TimerState :=
  { scrollTimer := none, pending := [], nextId := 1 }

/-- `window.clearTimeout(id)`: drop the pending timer with that identifier. -/
def clearTimeout (ts : TimerState) (id : Nat) : TimerState :=
  { ts with pending := ts.pending.filter fun p => p.1 ≠ id }

/-- `window.setTimeout(callback, delay)` at current time `now`: arm a fresh
timer and return its identifier. -/
def setTimeout (ts : TimerState) (now delay : Nat) : Nat × TimerState :=
  (ts.nextId,
   { ts with pending := ts.pending ++ [(ts.nextId, now + delay)],
             nextId := ts.nextId + 1 })

/-- `_onScroll` (lines 139-147) at current time `now`: clear any previously
armed timer, then arm a new 150-unit one and remember its identifier. -/
def onScroll (now : Nat) (ts : TimerState) : TimerState :=
  let ts1 :=
    match ts.scrollTimer with
    | some id => clearTimeout ts id
    | none => ts
  let armed := setTimeout ts1 now 150
  { armed.2 with scrollTimer := some armed.1 }

/-- A burst of scroll notifications at the given times, in order. -/
def processScrolls (events : List Nat) (ts : TimerState) : TimerState :=
  events.foldl (fun s t => onScroll t s) ts

/-- Timer-state invariant maintained by the instance: every pending timer
in the pool is the one `this._scrollTimer` refers to, and at most one
timer is outstanding. -/
def TimerWF (ts : TimerState) : Prop :=
  (∀ p ∈ ts.pending, some p.1 = ts.scrollTimer) ∧ ts.pending.length ≤ 1

instance (ts : TimerState) : Decidable (TimerWF ts) := by
  unfold TimerWF; infer_instance

/-- `componentWillUnmount` (lines 244-250) together with its (absent)
action on the timer state: the body unsubscribes the two listeners and
never references `this._scrollTimer` or `clearTimeout`. -/
def componentWillUnmountFull (opts : Options) (ts : TimerState) :
    List Effect × TimerState :=
  (componentWillUnmount opts, ts)

/-- Firing every still-pending timer: each outstanding `setTimeout`
callback is `this._saveScrollPosition`, evaluated against the host state
at fire time. -/
def fireAll (ts : TimerState) (win : Window) (hist : Hist) : List Effect :=
  ts.pending.foldr (fun _ acc => saveScrollPosition win hist ++ acc) []

/-- The navigation type `componentDidUpdate` computes:
`nav.type || TYPE_DEFAULT`. -/
def navTypeOf (inst : Inst) : String :=
  jsOrS (inst.currentNavigate.bind Nav.type) "default"

end HandleHistory

namespace HandleHistory

/-! ### Generic trace lemmas -/

theorem dispatches_append (a b : List Effect) :
    dispatches (a ++ b) = dispatches a ++ dispatches b :=
  List.filterMap_append a b _

theorem pushCalls_append (a b : List Effect) :
    pushCalls (a ++ b) = pushCalls a ++ pushCalls b :=
  List.filterMap_append a b _

theorem replaceCalls_append (a b : List Effect) :
    replaceCalls (a ++ b) = replaceCalls a ++ replaceCalls b :=
  List.filterMap_append a b _

theorem scrollToCalls_append (a b : List Effect) :
    scrollToCalls (a ++ b) = scrollToCalls a ++ scrollToCalls b :=
  List.filterMap_append a b _

theorem confirmCalls_append (a b : List Effect) :
    confirmCalls (a ++ b) = confirmCalls a ++ confirmCalls b :=
  List.filterMap_append a b _

/-- The guarded before-unload invocation only ever logs. -/
theorem runOnBeforeUnload_effects (w : Window) :
    (runOnBeforeUnload w).2 = [] ∨ (runOnBeforeUnload w).2 = [Effect.warn] := by
  unfold runOnBeforeUnload
  rcases w.onbeforeunload with _ | h
  · exact Or.inl rfl
  · cases h
    · exact Or.inl rfl
    · exact Or.inr rfl

/-! ### C1 — spurious page-load popstate suppression -/

/-- C1: with the cached `ignorePageLoadPopstate` flag set, an event whose
state payload is null while the native history reports a non-null state is
discarded: the handler produces no effect at all — no dispatch, no history
mutation, no before-unload consultation. -/
theorem spurious_popstate_suppressed (opts : Options) (inst : Inst)
    (win : Window) (hist : Hist) (e : Event)
    (hflag : inst.ignorePageLoadPopstate = true)
    (hev : e.state = none) (hhist : hist.state ≠ none) :
    onHistoryChange opts inst win hist e = [] := by
  unfold onHistoryChange
  rw [if_pos ⟨hflag, hev, hhist⟩]

/-- C1 witness at concrete inputs. -/
theorem spurious_popstate_suppressed_witness :
    onHistoryChange {} { ignorePageLoadPopstate := true } {}
      { url := "/a", state := some {} } { state := none } = [] :=
  spurious_popstate_suppressed {} { ignorePageLoadPopstate := true } {}
    { url := "/a", state := some {} } { state := none }
    rfl rfl (by decide)

/-! ### C2 — idempotence guard on outbound sync -/

/-- C2: an outbound navigation sync whose (defaulted) type is `click`,
`default` or `replacestate` and whose descriptor URL equals the native
history's current URL is a no-op: the trace is empty, so there is no
`pushState`/`replaceState`, no dispatch and no scroll change. -/
theorem outbound_sync_idempotent (opts : Options) (inst : Inst)
    (win : Window) (hist : Hist)
    (htype : navTypeOf inst = "click" ∨ navTypeOf inst = "default" ∨
      navTypeOf inst = "replacestate")
    (hurl : inst.currentNavigate.bind Nav.url = some hist.url) :
    componentDidUpdate opts inst win hist = [] := by
  unfold componentDidUpdate
  unfold navTypeOf at htype
  rw [if_pos htype, if_pos hurl]

/-- C2 witness at concrete inputs. -/
theorem outbound_sync_idempotent_witness :
    componentDidUpdate {}
      { ignorePageLoadPopstate := false,
        currentNavigate := some { type := some "click", url := some "/a" } }
      {} { url := "/a" } = [] :=
  outbound_sync_idempotent {}
    { ignorePageLoadPopstate := false,
      currentNavigate := some { type := some "click", url := some "/a" } }
    {} { url := "/a" } (by decide) (by decide)

/-! ### C10 — descriptor without a type field -/

/-- The `scroll` field `componentDidUpdate` stores into the new entry's
state (lines 267-281), given the descriptor's `preserveScrollPosition`. -/
def outboundScroll (opts : Options) (win : Window) (preserve : Bool) :
    Option ScrollPos :=
  if preserve then
    if opts.saveScrollInState then
      some { x := some (windowScrollX win), y := some (windowScrollY win) }
    else none
  else
    if opts.saveScrollInState then some { x := some 0, y := some 0 }
    else none

/-- C10: a descriptor lacking a `type` field is handled exactly as type
`default`: same trace as the explicitly-`default` (and `click`) variant,
same URL-equality guard, and on a differing URL the mutation is a single
`pushState` (never `replaceState`) carrying the descriptor's params and
query with the usual scroll field. -/
theorem missing_type_is_default (opts : Options) (inst : Inst) (win : Window)
    (hist : Hist) (nav : Nav)
    (hnav : inst.currentNavigate = some nav) (htype : nav.type = none) :
    componentDidUpdate opts inst win hist =
      componentDidUpdate opts
        { inst with currentNavigate := some { nav with type := some "default" } }
        win hist ∧
    componentDidUpdate opts inst win hist =
      componentDidUpdate opts
        { inst with currentNavigate := some { nav with type := some "click" } }
        win hist ∧
    (nav.url = some hist.url → componentDidUpdate opts inst win hist = []) ∧
    (nav.url ≠ some hist.url →
      replaceCalls (componentDidUpdate opts inst win hist) = [] ∧
      pushCalls (componentDidUpdate opts inst win hist) =
        [(some { params := some (nav.params.getD []),
                 query := some (nav.query.getD []),
                 scroll := outboundScroll opts win nav.preserveScrollPosition },
          jsOrNull ((nav.params.getD []).get "pageTitle"), nav.url)]) := by
  refine ⟨?_, ?_, ?_, ?_⟩
  · simp [componentDidUpdate, hnav, htype, jsOrS]
  · simp [componentDidUpdate, hnav, htype, jsOrS]
  · intro hurl
    simp [componentDidUpdate, hnav, htype, jsOrS, hurl]
  · intro hurl
    simp only [componentDidUpdate, hnav, htype, jsOrS, outboundScroll]
    constructor
    · split_ifs <;>
        simp_all [replaceCalls_append, replaceCalls, pushCalls_append, pushCalls]
    · split_ifs <;>
        simp_all [replaceCalls_append, replaceCalls, pushCalls_append, pushCalls]

/-- C10 witness at concrete inputs. -/
theorem missing_type_is_default_witness :
    (componentDidUpdate {}
        { ignorePageLoadPopstate := false,
          currentNavigate := some { url := some "/b" } }
        {} { url := "/a" } =
      componentDidUpdate {}
        { ignorePageLoadPopstate := false,
          currentNavigate := some { type := some "default", url := some "/b" } }
        {} { url := "/a" }) ∧
    pushCalls (componentDidUpdate {}
        { ignorePageLoadPopstate := false,
          currentNavigate := some { url := some "/b" } }
        {} { url := "/a" }) =
      [(some { params := some [], query := some [],
               scroll := some { x := some 0, y := some 0 } },
        none, some "/b")] := by
  have h := missing_type_is_default {}
    { ignorePageLoadPopstate := false,
      currentNavigate := some { url := some "/b" } }
    {} { url := "/a" } { url := some "/b" } rfl rfl
  exact ⟨h.1, by
    have h4 := h.2.2.2 (by decide)
    simpa [outboundScroll, windowScrollX, windowScrollY, jsOrI] using h4.2⟩

/-! ### C3 — granted confirmation: dispatch on URL change, no-op otherwise -/

/-- C3: on a non-suppressed event with confirmation granted, a native URL
differing from the current route's URL yields exactly one dispatched
`popstate` action (URL from the history handle, params/query from the
event's state payload, absent when the payload is absent) and the
before-unload callback is cleared; equal URLs yield no dispatch. -/
theorem granted_popstate_dispatch (opts : Options) (inst : Inst) (win : Window)
    (hist : Hist) (e : Event)
    (hns : ¬(inst.ignorePageLoadPopstate ∧ e.state = none ∧ hist.state ≠ none))
    (hgrant : (runOnBeforeUnload win).1 = "" ∨ win.confirmAnswer = true) :
    (some hist.url ≠ inst.currentRoute.map Route.url →
      dispatches (onHistoryChange opts inst win hist e) =
        [{ type := "popstate", url := hist.url,
           params := e.state.bind HistoryEntryState.params,
           query := e.state.bind HistoryEntryState.query }] ∧
      Effect.clearOnBeforeUnload ∈ onHistoryChange opts inst win hist e) ∧
    (some hist.url = inst.currentRoute.map Route.url →
      dispatches (onHistoryChange opts inst win hist e) = []) := by
  simp only [onHistoryChange]
  rw [if_neg hns]
  rcases hhook : win.onbeforeunload with _ | hook
  · constructor <;> intro hurl <;>
      simp [runOnBeforeUnload, hhook, dispatches, hurl]
  · cases hook with
    | returns s =>
      by_cases hs : s = ""
      · subst hs
        constructor <;> intro hurl <;>
          simp [runOnBeforeUnload, hhook, dispatches, hurl]
      · have hca : win.confirmAnswer = true := by
          rcases hgrant with h | h
          · simp [runOnBeforeUnload, hhook] at h
            exact absurd h hs
          · exact h
        constructor <;> intro hurl <;>
          simp [runOnBeforeUnload, hhook, hs, hca, dispatches, hurl]
    | throws =>
      constructor <;> intro hurl <;>
        simp [runOnBeforeUnload, hhook, dispatches, hurl]

/-- C3 witness at concrete inputs. -/
theorem granted_popstate_dispatch_witness :
    dispatches (onHistoryChange {}
        { ignorePageLoadPopstate := false, currentRoute := some { url := "/item/0" } }
        {} { url := "/item/1" }
        { state := some { params := some [("id", "1")], query := some [] } }) =
      [{ type := "popstate", url := "/item/1",
         params := some [("id", "1")], query := some [] }] ∧
    Effect.clearOnBeforeUnload ∈ onHistoryChange {}
        { ignorePageLoadPopstate := false, currentRoute := some { url := "/item/0" } }
        {} { url := "/item/1" }
        { state := some { params := some [("id", "1")], query := some [] } } :=
  (granted_popstate_dispatch {}
    { ignorePageLoadPopstate := false, currentRoute := some { url := "/item/0" } }
    {} { url := "/item/1" }
    { state := some { params := some [("id", "1")], query := some [] } }
    (by decide) (Or.inl rfl)).1 (by decide)

/-! ### C4 — denied confirmation: compensating push, no dispatch -/

/-- C4: on a non-suppressed event where the before-unload callback returns
non-empty text and the user denies the prompt, the whole trace is the
prompt followed by exactly one `pushState` re-asserting the pre-navigation
current route's URL, and nothing is dispatched. -/
theorem denied_popstate_compensation (opts : Options) (inst : Inst)
    (win : Window) (hist : Hist) (e : Event) (s : String)
    (hns : ¬(inst.ignorePageLoadPopstate ∧ e.state = none ∧ hist.state ≠ none))
    (hhook : win.onbeforeunload = some (UnloadHook.returns s)) (hs : s ≠ "")
    (hdeny : win.confirmAnswer = false) :
    (∃ st pt, onHistoryChange opts inst win hist e =
      [Effect.confirmPrompt s,
       Effect.pushState (some st) pt (inst.currentRoute.map Route.url)]) ∧
    dispatches (onHistoryChange opts inst win hist e) = [] := by
  simp only [onHistoryChange]
  rw [if_neg hns]
  refine ⟨⟨{ query := some ((inst.currentNavigate.bind Nav.query).getD []),
             params := some ((inst.currentNavigate.bind Nav.params).getD []),
             scroll :=
               if opts.saveScrollInState then
                 some { x := some (windowScrollX win), y := some (windowScrollY win) }
               else none },
           jsOrNull (((inst.currentNavigate.bind Nav.params).getD []).get "pageTitle"),
           ?_⟩, ?_⟩ <;>
    simp [runOnBeforeUnload, hhook, hs, hdeny, dispatches]

/-- C4 witness at concrete inputs. -/
theorem denied_popstate_compensation_witness :
    (∃ st pt, onHistoryChange {}
        { ignorePageLoadPopstate := false, currentRoute := some { url := "/a" } }
        { onbeforeunload := some (UnloadHook.returns "Leave?"),
          confirmAnswer := false }
        { url := "/b" } { state := none } =
      [Effect.confirmPrompt "Leave?",
       Effect.pushState (some st) pt (some "/a")]) ∧
    dispatches (onHistoryChange {}
        { ignorePageLoadPopstate := false, currentRoute := some { url := "/a" } }
        { onbeforeunload := some (UnloadHook.returns "Leave?"),
          confirmAnswer := false }
        { url := "/b" } { state := none }) = [] :=
  denied_popstate_compensation {}
    { ignorePageLoadPopstate := false, currentRoute := some { url := "/a" } }
    { onbeforeunload := some (UnloadHook.returns "Leave?"),
      confirmAnswer := false }
    { url := "/b" } { state := none } "Leave?"
    (by decide) rfl (by decide) rfl

/-! ### C5 — throwing before-unload callback is guarded -/

/-- C5: on a non-suppressed event whose before-unload callback throws, the
trace is exactly a logged warning followed by the trace the handler would
produce with no callback registered at all — the error never escapes, no
confirmation prompt is shown, and handling proceeds as granted. -/
theorem throwing_unload_hook_guarded (opts : Options) (inst : Inst)
    (win : Window) (hist : Hist) (e : Event)
    (hns : ¬(inst.ignorePageLoadPopstate ∧ e.state = none ∧ hist.state ≠ none))
    (hhook : win.onbeforeunload = some UnloadHook.throws) :
    onHistoryChange opts inst win hist e =
      Effect.warn ::
        onHistoryChange opts inst { win with onbeforeunload := none } hist e ∧
    confirmCalls (onHistoryChange opts inst win hist e) = [] := by
  simp only [onHistoryChange]
  rw [if_neg hns, if_neg hns]
  constructor
  · simp [runOnBeforeUnload, hhook, windowScrollX, windowScrollY]
  · by_cases hu : some hist.url = inst.currentRoute.map Route.url <;>
      simp [runOnBeforeUnload, hhook, confirmCalls, hu]

/-- C5 witness at concrete inputs. -/
theorem throwing_unload_hook_guarded_witness :
    onHistoryChange {}
        { ignorePageLoadPopstate := false, currentRoute := some { url := "/a" } }
        { onbeforeunload := some UnloadHook.throws }
        { url := "/b" } { state := none } =
      Effect.warn ::
        onHistoryChange {}
          { ignorePageLoadPopstate := false, currentRoute := some { url := "/a" } }
          { onbeforeunload := none }
          { url := "/b" } { state := none } :=
  (throwing_unload_hook_guarded {}
    { ignorePageLoadPopstate := false, currentRoute := some { url := "/a" } }
    { onbeforeunload := some UnloadHook.throws }
    { url := "/b" } { state := none }
    (by decide) rfl).1

/-! ### C7 — scroll-save handler: skip, replace-only-scroll, idempotent -/

/-- C7: if the current entry's state already stores the viewport's exact
offsets the scroll-save handler writes nothing; otherwise it issues a
single `replaceState` (never `pushState`) whose state is the old state
with only the `scroll` field overwritten; and a second invocation after
the first is always a no-op, so two calls with identical offsets produce
at most the first call's single `replaceState`. -/
theorem save_scroll_position_spec (win : Window) (hist : Hist) :
    ((hist.state.getD HistoryEntryState.empty).scroll =
        some { x := some (windowScrollX win), y := some (windowScrollY win) } →
      saveScrollPosition win hist = []) ∧
    ((hist.state.getD HistoryEntryState.empty).scroll ≠
        some { x := some (windowScrollX win), y := some (windowScrollY win) } →
      saveScrollPosition win hist =
        [Effect.replaceState
          (some { hist.state.getD HistoryEntryState.empty with
                    scroll := some { x := some (windowScrollX win),
                                     y := some (windowScrollY win) } })
          none none]) ∧
    pushCalls (saveScrollPosition win hist) = [] ∧
    saveScrollPosition win (hist.applyEffects (saveScrollPosition win hist)) = [] := by
  rcases hsc : (hist.state.getD HistoryEntryState.empty).scroll with _ | ⟨sx, sy⟩
  · refine ⟨by simp [hsc], ?_, ?_, ?_⟩ <;>
      simp [saveScrollPosition, hsc, pushCalls, Hist.applyEffects, Hist.applyEffect]
  · by_cases hx : sx = some (windowScrollX win) <;>
      by_cases hy : sy = some (windowScrollY win)
    · subst hx; subst hy
      refine ⟨?_, ?_, ?_, ?_⟩ <;>
        simp [saveScrollPosition, hsc, pushCalls, Hist.applyEffects, Hist.applyEffect]
    all_goals
      refine ⟨?_, ?_, ?_, ?_⟩ <;>
        simp [saveScrollPosition, hsc, hx, hy, pushCalls,
          Hist.applyEffects, Hist.applyEffect]

/-- C7 witness at concrete inputs. -/
theorem save_scroll_position_spec_witness :
    saveScrollPosition { scrollX := some 5, scrollY := some 7 }
        { url := "/a", state := some { params := some [("k", "v")] } } =
      [Effect.replaceState
        (some { params := some [("k", "v")],
                scroll := some { x := some 5, y := some 7 } })
        none none] := by
  have h := (save_scroll_position_spec
    { scrollX := some 5, scrollY := some 7 }
    { url := "/a", state := some { params := some [("k", "v")] } }).2.1
    (by decide)
  simpa [windowScrollX, windowScrollY, jsOrI, HistoryEntryState.empty] using h

/-! ### C6 — scroll reset on push and restoration on popstate -/

/-- C6: with `enableScroll` and `saveScrollInState` on, an outbound
`click`/`default`/`replacestate` sync with `preserveScrollPosition` off
(and a fresh URL) scrolls to the origin and stores scroll `(0,0)` in the
new entry's state; a `popstate`-typed sync scrolls to the current entry's
stored offset with missing components defaulted to `0`; composing the two
restores the viewport to `(0,0)`. -/
theorem scroll_round_trip (opts : Options) (inst : Inst) (win : Window)
    (hist : Hist)
    (hE : opts.enableScroll = true) (hS : opts.saveScrollInState = true)
    (htype : navTypeOf inst = "click" ∨ navTypeOf inst = "default" ∨
      navTypeOf inst = "replacestate")
    (hurl : inst.currentNavigate.bind Nav.url ≠ some hist.url)
    (hpres : (inst.currentNavigate.map Nav.preserveScrollPosition).getD false
      = false) :
    scrollToCalls (componentDidUpdate opts inst win hist) = [(0, 0)] ∧
    ((hist.applyEffects (componentDidUpdate opts inst win hist)).state.getD
        HistoryEntryState.empty).scroll = some { x := some 0, y := some 0 } ∧
    (∀ inst' win' hist', navTypeOf inst' = "popstate" →
      scrollToCalls (componentDidUpdate opts inst' win' hist') =
        [(jsOrI ((hist'.state.getD HistoryEntryState.empty).scroll.getD
            ScrollPos.empty).x 0,
          jsOrI ((hist'.state.getD HistoryEntryState.empty).scroll.getD
            ScrollPos.empty).y 0)]) ∧
    (∀ inst' win', navTypeOf inst' = "popstate" →
      scrollToCalls (componentDidUpdate opts inst' win'
        (hist.applyEffects (componentDidUpdate opts inst win hist))) =
        [(0, 0)]) := by
  have hmain : scrollToCalls (componentDidUpdate opts inst win hist) = [(0, 0)] := by
    rcases htype with h | h | h <;> unfold navTypeOf at h <;>
      simp [componentDidUpdate, h, hurl, hpres, hE, hS, scrollToCalls]
  have hmut : ((hist.applyEffects (componentDidUpdate opts inst win hist)).state.getD
      HistoryEntryState.empty).scroll = some { x := some 0, y := some 0 } := by
    rcases htype with h | h | h <;> unfold navTypeOf at h <;>
      simp [componentDidUpdate, h, hurl, hpres, hE, hS,
        Hist.applyEffects, Hist.applyEffect]
  have hpop : ∀ inst' win' hist', navTypeOf inst' = "popstate" →
      scrollToCalls (componentDidUpdate opts inst' win' hist') =
        [(jsOrI ((hist'.state.getD HistoryEntryState.empty).scroll.getD
            ScrollPos.empty).x 0,
          jsOrI ((hist'.state.getD HistoryEntryState.empty).scroll.getD
            ScrollPos.empty).y 0)] := by
    intro inst' win' hist' h'
    unfold navTypeOf at h'
    simp [componentDidUpdate, h', hE, scrollToCalls]
  refine ⟨hmain, hmut, hpop, ?_⟩
  intro inst' win' h'
  rw [hpop inst' win' _ h', hmut]
  simp [jsOrI, ScrollPos.empty]

/-- C6 witness at concrete inputs. -/
theorem scroll_round_trip_witness :
    scrollToCalls (componentDidUpdate {}
        { ignorePageLoadPopstate := false,
          currentNavigate := some { type := some "click", url := some "/b" } }
        { scrollX := some 3, scrollY := some 9 } { url := "/a" }) = [(0, 0)] ∧
    scrollToCalls (componentDidUpdate {}
        { ignorePageLoadPopstate := false,
          currentNavigate := some { type := some "popstate" } }
        {}
        (Hist.applyEffects { url := "/a" }
          (componentDidUpdate {}
            { ignorePageLoadPopstate := false,
              currentNavigate := some { type := some "click", url := some "/b" } }
            { scrollX := some 3, scrollY := some 9 } { url := "/a" }))) = [(0, 0)] := by
  have h := scroll_round_trip {}
    { ignorePageLoadPopstate := false,
      currentNavigate := some { type := some "click", url := some "/b" } }
    { scrollX := some 3, scrollY := some 9 } { url := "/a" }
    rfl rfl (Or.inl rfl) (by decide) rfl
  exact ⟨h.1, h.2.2.2
    { ignorePageLoadPopstate := false,
      currentNavigate := some { type := some "popstate" } } {} rfl⟩

/-! ### C8 — scroll debounce: cancel-then-arm, single outstanding timer -/

/-- A well-formed timer pool is empty when no timer is remembered. -/
theorem timerwf_pending_nil (ts : TimerState) (h : TimerWF ts)
    (hst : ts.scrollTimer = none) : ts.pending = [] := by
  cases hp : ts.pending with
  | nil => rfl
  | cons p l =>
    have := h.1 p (by rw [hp]; exact List.mem_cons_self p l)
    rw [hst] at this
    exact absurd this (by simp)

/-- Clearing the remembered timer empties a well-formed pool. -/
theorem timerwf_filter_nil (ts : TimerState) (h : TimerWF ts) (id : Nat)
    (hst : ts.scrollTimer = some id) :
    ts.pending.filter (fun p => p.1 ≠ id) = [] := by
  rw [List.filter_eq_nil_iff]
  intro p hp
  have := h.1 p hp
  rw [hst] at this
  simp only [Option.some.injEq] at this
  simp [this]

/-- One `_onScroll` step from a well-formed state: the old timer is gone,
a single fresh timer due at `now + 150` is pending, it is the one the
instance remembers, and well-formedness is preserved. -/
theorem onScroll_step (ts : TimerState) (h : TimerWF ts) (now : Nat) :
    (onScroll now ts).pending = [(ts.nextId, now + 150)] ∧
    (onScroll now ts).scrollTimer = some ts.nextId ∧
    TimerWF (onScroll now ts) := by
  unfold onScroll clearTimeout setTimeout
  rcases hst : ts.scrollTimer with _ | id
  · have hnil := timerwf_pending_nil ts h hst
    simp only [hst, hnil]
    simp [TimerWF]
  · have hnil := timerwf_filter_nil ts h id hst
    simp only [hst, hnil]
    simp [TimerWF, hnil]

/-- Processing a burst of scroll events from a well-formed state keeps the
state well-formed, and the surviving timer (if any event occurred) is the
one armed by the last event. -/
theorem processScrolls_spec (evs : List Nat) (ts : TimerState)
    (h : TimerWF ts) :
    TimerWF (processScrolls evs ts) ∧
    (∀ t, evs.getLast? = some t →
      ∃ id, (processScrolls evs ts).pending = [(id, t + 150)]) := by
  induction evs generalizing ts with
  | nil => exact ⟨h, by simp⟩
  | cons t rest ih =>
    have hstep := onScroll_step ts h t
    have hrec := ih (onScroll t ts) hstep.2.2
    have hps : processScrolls (t :: rest) ts = processScrolls rest (onScroll t ts) :=
      rfl
    rw [hps]
    refine ⟨hrec.1, ?_⟩
    intro u hu
    cases rest with
    | nil =>
      simp only [List.getLast?_singleton, Option.some.injEq] at hu
      subst hu
      exact ⟨ts.nextId, by simpa [processScrolls] using hstep.1⟩
    | cons r rs =>
      refine hrec.2 u ?_
      simpa [List.getLast?_cons_cons] using hu

/-- The scroll-save callback performs at most one `replaceState`. -/
theorem saveScroll_replace_le_one (win : Window) (hist : Hist) :
    (replaceCalls (saveScrollPosition win hist)).length ≤ 1 := by
  simp only [saveScrollPosition]
  split <;> simp [replaceCalls]

/-- C8: every scroll notification cancels the previously armed timer and
arms exactly one new timer with the fixed 150-unit delay; consequently at
most one debounce timer is ever outstanding, after a burst the surviving
timer is the last event's, and firing everything still pending performs at
most one persisted scroll write. -/
theorem scroll_debounce (ts : TimerState) (h : TimerWF ts) (now : Nat)
    (evs : List Nat) :
    (onScroll now ts).pending = [(ts.nextId, now + 150)] ∧
    (onScroll now ts).scrollTimer = some ts.nextId ∧
    TimerWF (onScroll now ts) ∧
    TimerWF (processScrolls evs ts) ∧
    (processScrolls evs ts).pending.length ≤ 1 ∧
    (∀ t, evs.getLast? = some t →
      ∃ id, (processScrolls evs ts).pending = [(id, t + 150)]) ∧
    (∀ win hist,
      (replaceCalls (fireAll (processScrolls evs ts) win hist)).length ≤ 1) := by
  obtain ⟨h1, h2, h3⟩ := onScroll_step ts h now
  obtain ⟨h4, h5⟩ := processScrolls_spec evs ts h
  refine ⟨h1, h2, h3, h4, h4.2, h5, ?_⟩
  intro win hist
  cases hp : (processScrolls evs ts).pending with
  | nil => simp [fireAll, hp, replaceCalls]
  | cons p l =>
    have hlen := h4.2
    rw [hp] at hlen
    have hl : l = [] := by
      cases l with
      | nil => rfl
      | cons q m => simp at hlen
    subst hl
    simpa [fireAll, hp, replaceCalls_append, replaceCalls] using
      saveScroll_replace_le_one win hist

/-- C8 witness at concrete inputs. -/
theorem scroll_debounce_witness :
    (onScroll 10 TimerState.initial).pending = [(1, 160)] ∧
    (processScrolls [10, 20, 30] TimerState.initial).pending.length ≤ 1 ∧
    ∃ id, (processScrolls [10, 20, 30] TimerState.initial).pending =
      [(id, 180)] := by
  have h := scroll_debounce TimerState.initial (by decide) 10 [10, 20, 30]
  exact ⟨h.1, h.2.2.2.2.1, h.2.2.2.2.2.1 30 rfl⟩

/-! ### C9 — unmount unsubscribes but leaves the debounce timer armed -/

/-- C9: unmount unsubscribes the history listener, unsubscribes the scroll
listener exactly when `saveScrollInState` is on, and leaves the timer
state untouched — an armed debounce timer stays pending, and firing it
after teardown can still perform a `replaceState`. -/
theorem unmount_leaves_timer (opts : Options) (ts : TimerState) :
    (componentWillUnmountFull opts ts).1 =
      [Effect.offHistoryListener] ++
        (if opts.saveScrollInState then [Effect.removeScrollListener] else []) ∧
    Effect.offHistoryListener ∈ (componentWillUnmountFull opts ts).1 ∧
    (Effect.removeScrollListener ∈ (componentWillUnmountFull opts ts).1 ↔
      opts.saveScrollInState = true) ∧
    (componentWillUnmountFull opts ts).2 = ts ∧
    (ts.pending ≠ [] → ∃ win hist,
      1 ≤ (replaceCalls
        (fireAll (componentWillUnmountFull opts ts).2 win hist)).length) := by
  refine ⟨rfl, ?_, ?_, rfl, ?_⟩
  · simp [componentWillUnmountFull, componentWillUnmount]
  · by_cases hs : opts.saveScrollInState <;>
      simp [componentWillUnmountFull, componentWillUnmount, hs]
  · intro hp
    refine ⟨{}, { url := "/", state := none }, ?_⟩
    have hone : replaceCalls (saveScrollPosition {} { url := "/", state := none })
        = [(some { scroll := some { x := some 0, y := some 0 } }, none, none)] := by
      decide
    cases hq : ts.pending with
    | nil => exact absurd hq hp
    | cons p l =>
      simp [componentWillUnmountFull, fireAll, hq, replaceCalls_append, hone]

/-- C9 witness at concrete inputs. -/
theorem unmount_leaves_timer_witness :
    (componentWillUnmountFull {}
      { scrollTimer := some 0, pending := [(0, 160)], nextId := 1 }).2 =
      { scrollTimer := some 0, pending := [(0, 160)], nextId := 1 } ∧
    ∃ win hist, 1 ≤ (replaceCalls
      (fireAll (componentWillUnmountFull {}
        { scrollTimer := some 0, pending := [(0, 160)], nextId := 1 }).2
        win hist)).length := by
  have h := unmount_leaves_timer {}
    { scrollTimer := some 0, pending := [(0, 160)], nextId := 1 }
  exact ⟨h.2.2.2.1, h.2.2.2.2 (by decide)⟩

end HandleHistory
